import Mathlib

/-!
Shallow embedding of the Slotify AI microservice (`ai_service/app.py` and
`ai_service/utils/ocr.py`).

Python floats are modelled as rationals (`ℚ`); byte buffers as `List Nat`;
images as a dimensions-plus-pixel-function record.  External collaborators
(the optional triage model, OpenCV primitives, the OCR engine, image
decoding) are either function parameters or concrete models of their
documented behaviour; everything written in the repository itself
(`predict`, `analyze_report`, `preprocess_image`) is translated line by
line.
-/

namespace Slotify

/-- The request body of `/predict` (`PatientData` in `app.py`): symptoms text,
integer heart rate, float temperature, integer oxygen saturation. -/
structure PatientData where
  symptoms : String
  heart_rate : Int
  temperature : ℚ
  oxygen_saturation : Int
deriving DecidableEq

/-- A Python value as returned by the external model's predict call: either a
value with a numeric conversion (carrying the converted float) or one whose
`float(...)` conversion raises. -/
inductive PyVal where
  | numeric (q : ℚ)
  | nonNumeric
deriving DecidableEq

/-- Python `float(x)`: on a numerically convertible value it yields the float,
otherwise it raises. A value built by `float(...)` is always `.numeric`. -/
def toFloat : PyVal → Except Unit ℚ
  | .numeric q => .ok q
  | .nonNumeric => .error ()

/-- The optional external model collaborator: invoked with the feature vector
`[heart_rate, temperature, oxygen_saturation]` in that order; it may raise
(`.error`) or return any Python value. -/
def Model : Type := Int → ℚ → Int → Except Unit PyVal

/-- The heuristic of `predict` (app.py line 47):
`(heart_rate / 2) + (temperature * 10) - (100 - oxygen_saturation)`,
with Python true division on the integer heart rate. -/
def heuristicRaw (d : PatientData) : ℚ :=
  (d.heart_rate : ℚ) / 2 + d.temperature * 10 - (100 - (d.oxygen_saturation : ℚ))

/-- The raw-score computation of `predict` (app.py lines 39-47): if a model is
loaded, `float(model.predict(features)[0])` inside a try/except whose except
branch computes the heuristic; with no model, the heuristic directly. -/
def computeRaw (model : Option Model) (d : PatientData) : ℚ :=
  match model with
  | some m =>
      match (m d.heart_rate d.temperature d.oxygen_saturation).bind toFloat with
      | .ok q => q
      | .error _ => heuristicRaw d
  | none => heuristicRaw d

/-- The `try: raw = float(raw) except: raw = 0.0` step (app.py lines 51-54).
At this point `raw` is a Python float, modelled by wrapping in `.numeric`. -/
def normalizeRaw (raw : ℚ) : ℚ :=
  match toFloat (.numeric raw) with
  | .ok q => q
  | .error _ => 0

/-- Round-half-even integer rounding, the semantics of Python `round`. -/
def roundHalfEven (q : ℚ) : ℤ :=
  let f := ⌊q⌋
  let r := q - f
  if r < 1 / 2 then f
  else if 1 / 2 < r then f + 1
  else if f % 2 = 0 then f else f + 1

/-- Python `round(x, 2)`: round half-to-even at two decimal places. -/
def round2 (q : ℚ) : ℚ := (roundHalfEven (q * 100) : ℚ) / 100

/-- The JSON body returned by `/predict`. -/
structure PredictResponse where
  score : ℚ
  category : String
deriving DecidableEq

/-- The category ladder of `predict` (app.py lines 64-72). -/
def categorize (score : ℚ) : String :=
  if score ≥ 80 then "Critical"
  else if score ≥ 60 then "Urgent"
  else if score ≥ 40 then "Less-Urgent"
  else "Non-Urgent"

/-- The `/predict` handler (app.py lines 32-74): raw score, numeric
re-conversion, hard clamp to `[0, 100]`, category from the clamped score,
response with the score rounded to two decimals. -/
def predict (model : Option Model) (d : PatientData) : PredictResponse :=
  let raw := normalizeRaw (computeRaw model d)
  let score := max 0 (min 100 raw)
  { score := round2 score, category := categorize score }

/-- `predict` with the dead `except: raw = 0.0` coercion removed: the raw
score flows straight into the clamp. Used to state that the coercion branch
is unreachable. -/
def predictNoCoercion (model : Option Model) (d : PatientData) : PredictResponse :=
  let raw := computeRaw model d
  let score := max 0 (min 100 raw)
  { score := round2 score, category := categorize score }

/-- A decoded raster image: dimensions, channel count and a total pixel
accessor `pix y x c`. -/
structure Image where
  height : Nat
  width : Nat
  channels : Nat
  pix : Nat → Nat → Nat → Nat

/-- Models the external OpenCV collaborator `cv2.cvtColor(img, COLOR_BGR2GRAY)`:
on a 3-channel BGR image it produces a single-channel luminance image of the
same dimensions; on any other channel count the call raises. -/
def cvtColorBGR2GRAY (img : Image) : Except Unit Image :=
  if img.channels = 3 then
    .ok { height := img.height, width := img.width, channels := 1,
          pix := fun y x _ =>
            (114 * img.pix y x 0 + 587 * img.pix y x 1 + 299 * img.pix y x 2) / 1000 }
  else .error ()

/-- Models the external OpenCV collaborator
`cv2.resize(img, None, fx, fy, INTER_LINEAR)`: the output dimensions are the
scaled dimensions rounded to the nearest integer; interpolation is modelled by
sampling the source at the back-projected coordinate. -/
def resize (img : Image) (fx fy : ℚ) : Image :=
  { height := (round (fy * (img.height : ℚ))).toNat,
    width := (round (fx * (img.width : ℚ))).toNat,
    channels := img.channels,
    pix := fun y x c =>
      img.pix (round ((y : ℚ) / fy)).toNat (round ((x : ℚ) / fx)).toNat c }

/-- Models the external OpenCV collaborator `cv2.GaussianBlur(img, (3, 3), 0)`:
3×3 Gaussian kernel (weights 1-2-1 / 2-4-2 / 1-2-1 over 16), dimensions and
channels preserved, borders clamped. -/
def gaussianBlur3 (img : Image) : Image :=
  { img with pix := fun y x c =>
      (img.pix (y - 1) (x - 1) c + 2 * img.pix (y - 1) x c + img.pix (y - 1) (x + 1) c
        + 2 * img.pix y (x - 1) c + 4 * img.pix y x c + 2 * img.pix y (x + 1) c
        + img.pix (y + 1) (x - 1) c + 2 * img.pix (y + 1) x c + img.pix (y + 1) (x + 1) c) / 16 }

/-- Models the external OpenCV collaborator `cv2.adaptiveThreshold(img,
maxValue, ADAPTIVE_THRESH_GAUSSIAN_C, THRESH_BINARY, 21, c)`: each output
pixel is `maxValue` when the source pixel exceeds the Gaussian-weighted
neighbourhood mean minus `c`, else 0; the Gaussian weighting is internal to
OpenCV and is passed in as the abstract `mean` function. The output is
single-channel. -/
def adaptiveThreshold (mean : Nat → Nat → ℚ) (img : Image) (maxValue : Nat) (c : ℚ) : Image :=
  { height := img.height, width := img.width, channels := 1,
    pix := fun y x _ => if ((img.pix y x 0 : ℚ) > mean y x - c) then maxValue else 0 }

/-- The grayscale step of `preprocess_image` (ocr.py lines 14-18): the
try/except around `cv2.cvtColor` — on failure the input is used unchanged. -/
def grayOf (image : Image) : Image :=
  match cvtColorBGR2GRAY image with
  | .ok g => g
  | .error _ => image

/-- The conditional upscale step of `preprocess_image` (ocr.py lines 21-23):
when the width is below 1000, scale both dimensions by `1000.0 / w`. -/
def upscaleOf (gray : Image) : Image :=
  if gray.width < 1000 then
    resize gray (1000 / (gray.width : ℚ)) (1000 / (gray.width : ℚ))
  else gray

/-- `preprocess_image` from `utils/ocr.py`: grayscale conversion with
pass-through on failure, upscale by `1000.0 / w` when the width is below
1000, 3×3 Gaussian blur, adaptive threshold (max 255, block 21, offset 10).
`mean` is the OpenCV-internal neighbourhood-mean function used by the
adaptive threshold. -/
def preprocess_image (mean : Image → Nat → Nat → ℚ) (image : Image) : Image :=
  let blur := gaussianBlur3 (upscaleOf (grayOf image))
  adaptiveThreshold (mean blur) blur 255 10

/-- The JSON body returned by `/analyze-report`; absent keys are `none`. -/
structure ReportResponse where
  success : Bool
  message : Option String
  summary : Option String
  extracted_text : Option String
deriving DecidableEq

/-- Python `needle in hay` on strings: substring containment. -/
def strContains (hay needle : String) : Bool := decide (needle.data <:+: hay.data)

/-- Python `s.lower()`: lower-case every character. -/
def strLower (s : String) : String := String.mk (s.data.map Char.toLower)

/-- Python string slicing `s[:n]`: the first `n` characters. -/
def strTake (s : String) (n : Nat) : String := String.mk (s.data.take n)

/-- The summary computed by `analyze_report` (app.py line 92):
`"Critical findings detected"` when the lowercased text contains
`"critical"` or `"abnormal"`, else `"Normal findings"`. -/
def summaryOf (text : String) : String :=
  if strContains (strLower text) "critical" || strContains (strLower text) "abnormal" then
    "Critical findings detected"
  else "Normal findings"

/-- The excerpt computed by `analyze_report` (app.py line 93):
`text[:200] + ("..." if len(text) > 200 else "")`. -/
def snippet (text : String) : String :=
  strTake text 200 ++ (if text.length > 200 then "..." else "")

/-- The `/analyze-report` handler (app.py lines 77-98): decode the uploaded
bytes (external collaborator `decode`, `none` models `cv2.imdecode` returning
`None`); on failure return the failure body at once; otherwise preprocess,
recognise (external collaborator `recognize` models `pytesseract`), classify
and excerpt. -/
def analyze_report (decode : List Nat → Option Image) (recognize : Image → String)
    (mean : Image → Nat → Nat → ℚ) (contents : List Nat) : ReportResponse :=
  match decode contents with
  | none =>
      { success := false, message := some "Unable to decode image",
        summary := none, extracted_text := none }
  | some img =>
      let processed := preprocess_image mean img
      let text := recognize processed
      { success := true, message := none,
        summary := some (summaryOf text), extracted_text := some (snippet text) }

/-! Helper lemmas about round-half-even rounding. -/

lemma roundHalfEven_floor_le (q : ℚ) : ⌊q⌋ ≤ roundHalfEven q := by
  simp only [roundHalfEven]
  split_ifs <;> omega

lemma roundHalfEven_le (q : ℚ) (n : ℤ) (h : q ≤ (n : ℚ)) : roundHalfEven q ≤ n := by
  have hf : ⌊q⌋ ≤ n := by
    have h1 : ⌊q⌋ ≤ ⌊(n : ℚ)⌋ := Int.floor_le_floor h
    simpa using h1
  have hkey : (1 : ℚ) / 2 ≤ q - ⌊q⌋ → ⌊q⌋ + 1 ≤ n := by
    intro hlt
    have h2 : (⌊q⌋ : ℚ) < (n : ℚ) := by linarith
    have h3 : ⌊q⌋ < n := by exact_mod_cast h2
    omega
  simp only [roundHalfEven]
  split_ifs with h1 h2 h3
  · exact hf
  · exact hkey (by linarith)
  · exact hf
  · exact hkey (by linarith)

lemma roundHalfEven_nonneg (q : ℚ) (h : 0 ≤ q) : 0 ≤ roundHalfEven q :=
  le_trans (Int.floor_nonneg.mpr h) (roundHalfEven_floor_le q)

lemma roundHalfEven_intCast (n : ℤ) : roundHalfEven (n : ℚ) = n := by
  norm_num [roundHalfEven]

lemma round2_nonneg (q : ℚ) (h : 0 ≤ q) : 0 ≤ round2 q := by
  unfold round2
  have h1 : 0 ≤ roundHalfEven (q * 100) := roundHalfEven_nonneg _ (by linarith)
  have h2 : (0 : ℚ) ≤ (roundHalfEven (q * 100) : ℚ) := by exact_mod_cast h1
  linarith

lemma round2_le (q : ℚ) (h : q ≤ 100) : round2 q ≤ 100 := by
  unfold round2
  have h1 : roundHalfEven (q * 100) ≤ 10000 :=
    roundHalfEven_le _ 10000 (by push_cast; linarith)
  have h2 : ((roundHalfEven (q * 100) : ℚ)) ≤ 10000 := by exact_mod_cast h1
  linarith

lemma round2_eq_self (q : ℚ) (n : ℤ) (h : q * 100 = (n : ℚ)) : round2 q = q := by
  unfold round2
  rw [h, roundHalfEven_intCast, ← h]
  field_simp

/-! Claim theorems. -/

/-- C1 input showing the effect of rounding: heart rate 0, temperature
0.0005, oxygen saturation 100 gives raw score 0.005. -/
def c1Input : PatientData := ⟨"", 0, 1 / 2000, 100⟩

/-- C1 as stated fails on the code: for this input the raw score 1/200 lies
in [0, 100], yet the returned score is 0 rather than the unchanged raw
value, because the response rounds the clamped score to two decimals. -/
theorem inrange_raw_not_returned_unchanged :
    computeRaw none c1Input = 1 / 200 ∧ (0 : ℚ) ≤ 1 / 200 ∧ (1 : ℚ) / 200 ≤ 100 ∧
    (predict none c1Input).score = 0 ∧
    (predict none c1Input).score ≠ computeRaw none c1Input := by
  norm_num [c1Input, predict, computeRaw, heuristicRaw, normalizeRaw, toFloat, round2,
    roundHalfEven]

/-- C1 amended: the returned score always lies in [0, 100]; a raw score
below 0 is returned as 0, one above 100 as 100, and one already in [0, 100]
is returned rounded half-to-even to two decimal places — hence unchanged
whenever it is an exact multiple of 1/100. -/
theorem predict_score_clamped (m : Option Model) (d : PatientData) :
    0 ≤ (predict m d).score ∧ (predict m d).score ≤ 100 ∧
    (computeRaw m d < 0 → (predict m d).score = 0) ∧
    (100 < computeRaw m d → (predict m d).score = 100) ∧
    (0 ≤ computeRaw m d → computeRaw m d ≤ 100 →
      (predict m d).score = round2 (computeRaw m d) ∧
      ∀ n : ℤ, computeRaw m d * 100 = (n : ℚ) → (predict m d).score = computeRaw m d) := by
  have hs : (predict m d).score = round2 (max 0 (min 100 (computeRaw m d))) := rfl
  refine ⟨?_, ?_, ?_, ?_, ?_⟩
  · rw [hs]; exact round2_nonneg _ (le_max_left _ _)
  · rw [hs]; exact round2_le _ (max_le (by norm_num) (min_le_left _ _))
  · intro h
    rw [hs, min_eq_right (le_trans h.le (by norm_num)), max_eq_left h.le]
    norm_num [round2, roundHalfEven]
  · intro h
    rw [hs, min_eq_left h.le, max_eq_right (by norm_num : (0 : ℚ) ≤ 100)]
    norm_num [round2, roundHalfEven]
  · intro h0 h1
    have hclamp : max 0 (min 100 (computeRaw m d)) = computeRaw m d := by
      rw [min_eq_right h1, max_eq_right h0]
    refine ⟨by rw [hs, hclamp], fun n hn => ?_⟩
    rw [hs, hclamp]
    exact round2_eq_self _ n hn

/-- C1 witness: a raw score of 500 is returned as 100 and a raw score of
-300 as 0. -/
theorem predict_score_clamped_witness :
    (predict none ⟨"", 200, 40, 100⟩).score = 100 ∧
    (predict none ⟨"", -400, 0, 0⟩).score = 0 :=
  ⟨(predict_score_clamped none _).2.2.2.1 (by norm_num [computeRaw, heuristicRaw]),
   (predict_score_clamped none _).2.2.1 (by norm_num [computeRaw, heuristicRaw])⟩

/-- C2: the category returned by predict is computed from the clamped
(pre-rounding) score by the total deterministic ladder with inclusive lower
boundaries: ≥ 80 Critical, [60, 80) Urgent, [40, 60) Less-Urgent, below 40
Non-Urgent; in particular 80 is Critical, 60 Urgent, 40 Less-Urgent and
39.99 Non-Urgent. -/
theorem category_of_clamped_score (m : Option Model) (d : PatientData) :
    (predict m d).category = categorize (max 0 (min 100 (computeRaw m d))) ∧
    (∀ s : ℚ,
      (80 ≤ s → categorize s = "Critical") ∧
      (60 ≤ s → s < 80 → categorize s = "Urgent") ∧
      (40 ≤ s → s < 60 → categorize s = "Less-Urgent") ∧
      (s < 40 → categorize s = "Non-Urgent")) ∧
    categorize 80 = "Critical" ∧ categorize 60 = "Urgent" ∧
    categorize 40 = "Less-Urgent" ∧ categorize (3999 / 100) = "Non-Urgent" := by
  refine ⟨rfl, ?_, by norm_num [categorize], by norm_num [categorize],
    by norm_num [categorize], by norm_num [categorize]⟩
  intro s
  refine ⟨fun h => ?_, fun h1 h2 => ?_, fun h1 h2 => ?_, fun h => ?_⟩
  · simp [categorize, h]
  · have hn : ¬ (s ≥ 80) := by linarith
    simp [categorize, hn, h1]
  · have hn8 : ¬ (s ≥ 80) := by linarith
    have hn6 : ¬ (s ≥ 60) := by linarith
    simp [categorize, hn8, hn6, h1]
  · have hn8 : ¬ (s ≥ 80) := by linarith
    have hn6 : ¬ (s ≥ 60) := by linarith
    have hn4 : ¬ (s ≥ 40) := by linarith
    simp [categorize, hn8, hn6, hn4]

/-- C2 witness: the ladder at 90, 70, 50 and 10. -/
theorem category_of_clamped_score_witness :
    categorize 90 = "Critical" ∧ categorize 70 = "Urgent" ∧
    categorize 50 = "Less-Urgent" ∧ categorize 10 = "Non-Urgent" :=
  ⟨((category_of_clamped_score none ⟨"", 0, 0, 0⟩).2.1 90).1 (by norm_num),
   ((category_of_clamped_score none ⟨"", 0, 0, 0⟩).2.1 70).2.1 (by norm_num) (by norm_num),
   ((category_of_clamped_score none ⟨"", 0, 0, 0⟩).2.1 50).2.2.1 (by norm_num) (by norm_num),
   ((category_of_clamped_score none ⟨"", 0, 0, 0⟩).2.1 10).2.2.2 (by norm_num)⟩

/-- C3: on the heuristic path (no model loaded) the raw score equals
`heart_rate / 2 + temperature * 10 - (100 - oxygen_saturation)` for every
input; at heart rate 80, temperature 37, oxygen saturation 98 the raw score
is 408, which clamps to a returned score of 100 with category "Critical". -/
theorem heuristic_formula_and_example :
    (∀ d : PatientData, computeRaw none d =
      (d.heart_rate : ℚ) / 2 + d.temperature * 10 - (100 - (d.oxygen_saturation : ℚ))) ∧
    computeRaw none ⟨"", 80, 37, 98⟩ = 408 ∧
    predict none ⟨"", 80, 37, 98⟩ = ⟨100, "Critical"⟩ := by
  refine ⟨fun d => rfl, by norm_num [computeRaw, heuristicRaw], ?_⟩
  norm_num [predict, computeRaw, heuristicRaw, normalizeRaw, toFloat, round2, roundHalfEven,
    categorize]

/-- C4: when the model invocation raises, predict returns exactly the
response the heuristic-only path produces for the same input. -/
theorem model_failure_fallback (m : Model) (d : PatientData)
    (h : m d.heart_rate d.temperature d.oxygen_saturation = .error ()) :
    predict (some m) d = predict none d := by
  simp only [predict, computeRaw, h, Except.bind]

/-- A model stub whose invocation always raises. -/
def failingModel : Model := fun _ _ _ => .error ()

/-- C4 witness: the always-raising model gives the heuristic response. -/
theorem model_failure_fallback_witness :
    predict (some failingModel) ⟨"", 80, 37, 98⟩ = predict none ⟨"", 80, 37, 98⟩ :=
  model_failure_fallback failingModel ⟨"", 80, 37, 98⟩ rfl

/-- C9: the symptoms text has no influence on predict: two inputs that agree
on heart rate, temperature and oxygen saturation produce identical
responses whatever their symptoms fields are. -/
theorem symptoms_no_influence (m : Option Model) (d₁ d₂ : PatientData)
    (hh : d₁.heart_rate = d₂.heart_rate) (ht : d₁.temperature = d₂.temperature)
    (ho : d₁.oxygen_saturation = d₂.oxygen_saturation) :
    predict m d₁ = predict m d₂ := by
  obtain ⟨s₁, hr₁, t₁, o₁⟩ := d₁
  obtain ⟨s₂, hr₂, t₂, o₂⟩ := d₂
  simp only at hh ht ho
  subst hh; subst ht; subst ho
  cases m with
  | none => rfl
  | some f => rfl

/-- C9 witness: changing only the symptoms text leaves the response
unchanged. -/
theorem symptoms_no_influence_witness :
    predict none ⟨"fever and cough", 80, 37, 98⟩ = predict none ⟨"", 80, 37, 98⟩ :=
  symptoms_no_influence none _ _ rfl rfl rfl

/-- C10: the `except: raw = 0.0` coercion branch is dead code: `float`
applied to the raw value (always itself a float) succeeds with the value
unchanged, the normalization step is the identity on every reachable raw
score, and predict coincides with the coercion-free program. -/
theorem coercion_branch_unreachable (m : Option Model) (d : PatientData) :
    toFloat (PyVal.numeric (computeRaw m d)) = Except.ok (computeRaw m d) ∧
    normalizeRaw (computeRaw m d) = computeRaw m d ∧
    predict m d = predictNoCoercion m d :=
  ⟨rfl, rfl, rfl⟩

/-- C5: when decoding fails, analyze_report returns exactly
`{success: false, message: "Unable to decode image"}`, and the result does
not depend on the recognition function or on the preprocessing threshold in
any way — the pure-embedding formalization of "neither the preprocessor nor
the recognition function is invoked". -/
theorem decode_failure_response (decode : List Nat → Option Image) (contents : List Nat)
    (h : decode contents = none) :
    (∀ recognize mean, analyze_report decode recognize mean contents =
      { success := false, message := some "Unable to decode image",
        summary := none, extracted_text := none }) ∧
    (∀ r₁ r₂ mean₁ mean₂,
      analyze_report decode r₁ mean₁ contents = analyze_report decode r₂ mean₂ contents) := by
  constructor
  · intro recognize mean
    simp only [analyze_report, h]
  · intro r₁ r₂ mean₁ mean₂
    simp only [analyze_report, h]

/-- C5 witness: a decoder rejecting every buffer yields the failure body. -/
theorem decode_failure_response_witness :
    analyze_report (fun _ => none) (fun _ => "") (fun _ _ _ => 0) [1, 2, 3] =
      { success := false, message := some "Unable to decode image",
        summary := none, extracted_text := none } :=
  (decode_failure_response (fun _ => none) [1, 2, 3] rfl).1 (fun _ => "") (fun _ _ _ => 0)

/-- C6: the excerpt is the first 200 characters of the extracted text with
"..." appended exactly when the text exceeds 200 characters: a text of
length at most 200 passes through unchanged, a longer one yields its first
200 characters plus "...", of length exactly 203; the success response
carries this excerpt. -/
theorem excerpt_truncation (text : String) :
    (text.length ≤ 200 → snippet text = text) ∧
    (200 < text.length →
      snippet text = strTake text 200 ++ "..." ∧ (snippet text).length = 203) ∧
    (∀ decode recognize mean contents img, decode contents = some img →
      (analyze_report decode recognize mean contents).extracted_text =
        some (snippet (recognize (preprocess_image mean img)))) := by
  refine ⟨?_, ?_, ?_⟩
  · intro h
    have h2 : ¬ (text.length > 200) := by omega
    obtain ⟨l⟩ := text
    simp only [snippet, if_neg h2, strTake]
    have h3 : l.take 200 = l := List.take_of_length_le (by simpa using h)
    simp [h3]
  · intro h
    have h2 : text.length > 200 := h
    refine ⟨by simp [snippet, if_pos h2], ?_⟩
    obtain ⟨l⟩ := text
    simp only [snippet, if_pos h2, strTake]
    show (String.mk (l.take 200) ++ { data := ['.', '.', '.'] }).length = 203
    have hd : (String.mk (l.take 200) ++ { data := ['.', '.', '.'] }).data
        = l.take 200 ++ ['.', '.', '.'] := rfl
    have hlen : (String.mk (l.take 200) ++ { data := ['.', '.', '.'] }).length
        = (l.take 200 ++ ['.', '.', '.']).length := congrArg List.length hd
    rw [hlen]
    simp only [List.length_append, List.length_take, List.length_cons, List.length_nil]
    simp only [String.length] at h2
    omega
  · intro decode recognize mean contents img hdec
    simp only [analyze_report, hdec]

/-- A 250-character extracted text. -/
def longText : String := String.mk (List.replicate 250 'a')

/-- A 50-character extracted text. -/
def shortText : String := String.mk (List.replicate 50 'b')

set_option maxRecDepth 4000 in
/-- C6 witness: a 250-character text yields a 203-character excerpt; a
50-character text passes through unchanged. -/
theorem excerpt_truncation_witness :
    (snippet longText).length = 203 ∧ snippet shortText = shortText :=
  ⟨((excerpt_truncation longText).2.1 (by decide)).2,
   (excerpt_truncation shortText).1 (by decide)⟩

/-- C7: the summary is "Critical findings detected" exactly when the
lowercased extracted text contains "critical" or "abnormal" as a substring,
and "Normal findings" otherwise; the success response carries this
summary. -/
theorem keyword_classification (text : String) :
    (summaryOf text = "Critical findings detected" ↔
      ("critical".data <:+: (strLower text).data ∨
        "abnormal".data <:+: (strLower text).data)) ∧
    (¬ ("critical".data <:+: (strLower text).data ∨
        "abnormal".data <:+: (strLower text).data) →
      summaryOf text = "Normal findings") ∧
    (∀ decode recognize mean contents img, decode contents = some img →
      (analyze_report decode recognize mean contents).summary =
        some (summaryOf (recognize (preprocess_image mean img)))) := by
  refine ⟨?_, ?_, ?_⟩
  · unfold summaryOf strContains
    split_ifs with h
    · simp only [Bool.or_eq_true, decide_eq_true_eq] at h
      simp [h]
    · simp only [Bool.or_eq_true, decide_eq_true_eq] at h
      simp [h]
  · intro h
    unfold summaryOf strContains
    have hc : ¬ ((decide ("critical".data <:+: (strLower text).data) ||
        decide ("abnormal".data <:+: (strLower text).data)) = true) := by
      simpa [Bool.or_eq_true, decide_eq_true_eq] using h
    rw [if_neg hc]
  · intro decode recognize mean contents img hdec
    simp only [analyze_report, hdec]

set_option maxRecDepth 4000 in
/-- C7 witness: a case-varied "ABNORMAL findings" text is classified
critical; a text with neither keyword is classified normal. -/
theorem keyword_classification_witness :
    summaryOf "Report: ABNORMAL findings" = "Critical findings detected" ∧
    summaryOf "all clear" = "Normal findings" :=
  ⟨(keyword_classification "Report: ABNORMAL findings").1.mpr (Or.inr (by decide)),
   (keyword_classification "all clear").2.1 (by decide)⟩

/-- C8: the preprocessed image is always single-channel and binary (every
pixel is 0 or 255); when the decoded input width is below 1000 both
dimensions are scaled by the factor `1000 / w`, so the output width is
exactly 1000 (in particular at least 1000); when the input width is at
least 1000 the dimensions are unchanged. -/
theorem preprocess_dims_and_binary (mean : Image → Nat → Nat → ℚ) (img : Image)
    (hw : 1 ≤ img.width) (_hc : img.channels = 1 ∨ img.channels = 3) :
    (preprocess_image mean img).channels = 1 ∧
    (∀ y x c, (preprocess_image mean img).pix y x c = 0 ∨
      (preprocess_image mean img).pix y x c = 255) ∧
    (img.width < 1000 →
      (preprocess_image mean img).width = 1000 ∧
      1000 ≤ (preprocess_image mean img).width ∧
      (preprocess_image mean img).height =
        (round ((1000 / (img.width : ℚ)) * (img.height : ℚ))).toNat) ∧
    (1000 ≤ img.width →
      (preprocess_image mean img).width = img.width ∧
      (preprocess_image mean img).height = img.height) := by
  have hgray : (grayOf img).width = img.width ∧ (grayOf img).height = img.height := by
    unfold grayOf cvtColorBGR2GRAY
    split_ifs <;> exact ⟨rfl, rfl⟩
  have hpw : (preprocess_image mean img).width = (upscaleOf (grayOf img)).width := rfl
  have hph : (preprocess_image mean img).height = (upscaleOf (grayOf img)).height := rfl
  refine ⟨rfl, ?_, ?_, ?_⟩
  · intro y x c
    unfold preprocess_image adaptiveThreshold
    dsimp only
    split_ifs
    · exact Or.inr rfl
    · exact Or.inl rfl
  · intro hlt
    have hne : ((img.width : ℚ)) ≠ 0 := Nat.cast_ne_zero.mpr (by omega)
    have hcancel : (1000 / (img.width : ℚ)) * (img.width : ℚ) = 1000 :=
      div_mul_cancel₀ 1000 hne
    have h1000 : round ((1000 : ℚ)) = (1000 : ℤ) := by simp
    have hupw : (upscaleOf (grayOf img)).width = 1000 := by
      unfold upscaleOf resize
      rw [if_pos (by rw [hgray.1]; exact hlt)]
      dsimp only
      rw [hgray.1, hcancel, h1000]
      rfl
    have huph : (upscaleOf (grayOf img)).height =
        (round ((1000 / (img.width : ℚ)) * (img.height : ℚ))).toNat := by
      unfold upscaleOf resize
      rw [if_pos (by rw [hgray.1]; exact hlt)]
      dsimp only
      rw [hgray.1, hgray.2]
    refine ⟨by rw [hpw, hupw], by rw [hpw, hupw], by rw [hph, huph]⟩
  · intro hge
    have hnot : ¬ ((grayOf img).width < 1000) := by
      rw [hgray.1]; omega
    have hup : upscaleOf (grayOf img) = grayOf img := by
      unfold upscaleOf
      rw [if_neg hnot]
    refine ⟨by rw [hpw, hup, hgray.1], by rw [hph, hup, hgray.2]⟩

/-- C8 witness: a 3-channel 500×100 image is upscaled to width 1000 and a
3-channel 1200×100 image keeps its width; both outputs are single-channel
with a binary pixel checked explicitly. -/
theorem preprocess_dims_and_binary_witness :
    (preprocess_image (fun _ _ _ => 0) ⟨100, 500, 3, fun _ _ _ => 7⟩).width = 1000 ∧
    (preprocess_image (fun _ _ _ => 0) ⟨100, 1200, 3, fun _ _ _ => 7⟩).width = 1200 ∧
    (preprocess_image (fun _ _ _ => 0) ⟨100, 500, 3, fun _ _ _ => 7⟩).channels = 1 :=
  ⟨((preprocess_dims_and_binary (fun _ _ _ => 0) ⟨100, 500, 3, fun _ _ _ => 7⟩
      (by norm_num) (Or.inr rfl)).2.2.1 (by norm_num)).1,
   ((preprocess_dims_and_binary (fun _ _ _ => 0) ⟨100, 1200, 3, fun _ _ _ => 7⟩
      (by norm_num) (Or.inr rfl)).2.2.2 (by norm_num)).1,
   (preprocess_dims_and_binary (fun _ _ _ => 0) ⟨100, 500, 3, fun _ _ _ => 7⟩
      (by norm_num) (Or.inr rfl)).1⟩

end Slotify
